import Mathlib

/-!
A shallow embedding of the reference-counting core of `src/shared_ptr.h`
(namespace `sp`): the `control_block`, the `shared_ptr` / `weak_ptr`
handles built on it, `unique_ptr` interop and `enable_shared_from_this`.

Counters are embedded as `Int` (the source uses `std::atomic<long>`);
pointers are abstracted as `Option Int` (`none` = null pointer); the side
effects "the bound deleter ran on the stored pointer" and
"`delete this` freed the control block" are made observable as the
counters `deleterCalls` and `freeCount` of the block state.
-/

namespace Sp

/-- State of one `sp::control_block<T, D>` (src/shared_ptr.h:219-262).
`use` is `_use_count`, `weak` is `_weak_use_count`, `ptrNull` records
whether the stored pointer `_impl._impl_ptr()` is null, `deleterCalls`
counts invocations of `_deleter(_ptr)` and `freeCount` counts executions
of `delete this`. -/
structure BlockSt where
  use : Int
  weak : Int
  ptrNull : Bool
  deleterCalls : Nat
  freeCount : Nat
deriving Repr, DecidableEq

/-- `control_block::inc_ref` (line 226): `++_use_count`. -/
def inc_ref (b : BlockSt) : BlockSt := { b with use := b.use + 1 }

/-- `control_block::inc_wref` (line 227): `++_weak_use_count`. -/
def inc_wref (b : BlockSt) : BlockSt := { b with weak := b.weak + 1 }

/-- `control_block::dec_wref` (lines 239-242): `if (--_weak_use_count == 0)
delete this;`. -/
def dec_wref (b : BlockSt) : BlockSt :=
  if b.weak - 1 = 0 then
    { b with weak := b.weak - 1, freeCount := b.freeCount + 1 }
  else
    { b with weak := b.weak - 1 }

/-- `control_block::dec_ref` (lines 229-237): `if (--_use_count == 0) {
if (_ptr) _deleter(_ptr); dec_wref(); }`. -/
def dec_ref (b : BlockSt) : BlockSt :=
  if b.use - 1 = 0 then
    dec_wref (if b.ptrNull then { b with use := b.use - 1 }
              else { b with use := b.use - 1, deleterCalls := b.deleterCalls + 1 })
  else
    { b with use := b.use - 1 }

/-- `control_block::use_count` (line 245): `return _use_count;`. -/
def cb_use_count (b : BlockSt) : Int := b.use

/-- `control_block::expired` (line 252): `return _use_count == 0;`. -/
def cb_expired (b : BlockSt) : Bool := b.use == 0

/-- `control_block::unique` (line 247): `return _use_count == 1;`. -/
def cb_unique (b : BlockSt) : Bool := b.use == 1

/-- `control_block::weak_use_count` (line 250):
`return _weak_use_count - ((_use_count > 0) ? 1 : 0);`. -/
def cb_weak_use_count (b : BlockSt) : Int :=
  b.weak - (if b.use > 0 then 1 else 0)

/-- A freshly allocated `control_block` (member initializers, lines 258-260):
`_use_count{1}`, `_weak_use_count{1}`; `ptrNull` says whether the stored
pointer handed to the constructor was null. -/
def initBlock (ptrNull : Bool) : BlockSt :=
  { use := 1, weak := 1, ptrNull := ptrNull, deleterCalls := 0, freeCount := 0 }

/-- The world of one control block together with the handles bound to it:
`live` counts the currently-alive `shared_ptr` instances whose
`_control_block` is this block, `liveWeak` the currently-alive `weak_ptr`
instances whose `_control_block` is this block. -/
structure SysSt where
  block : BlockSt
  live : Nat
  liveWeak : Nat
deriving Repr, DecidableEq

/-- The handle operations bound to one control block, each translated from
its member function in src/shared_ptr.h:
* `copySP`: `shared_ptr` copy / conversion / aliasing ctor (lines 473-483)
  on a handle bound to this block — `_control_block->inc_ref()`.
* `moveSP`: `shared_ptr` move ctor (lines 487-498) — pointers transfer,
  source nulled, no count touched.
* `selfAssignSP`: copy assignment between handles of this block
  (lines 514-517, copy-and-swap) — a temporary copy (`inc_ref`) after
  which the temporary holding the old value destructs (`dec_ref`).
* `destroySP` / `resetSP`: the `shared_ptr` dtor (line 512) resp. `reset`
  (line 548, swap with an empty temporary that then destructs) —
  `_control_block->dec_ref()`.
* `copyWP`: `weak_ptr` ctor from a `shared_ptr` or `weak_ptr` bound to
  this block (lines 314-325) — `_control_block->inc_wref()`.
* `destroyWP` / `resetWP`: the `weak_ptr` dtor (line 326) resp.
  `weak_ptr::reset` (line 350) — `_control_block->dec_wref()`.
* `lockWP`: `weak_ptr::lock` (line 359): empty result when `expired()`,
  otherwise `shared_ptr{ *this }` which runs `_control_block->inc_ref()`. -/
inductive Op
  | copySP | moveSP | selfAssignSP | destroySP | resetSP
  | copyWP | destroyWP | resetWP | lockWP
deriving Repr, DecidableEq

/-- One handle operation; `none` when no handle with the required binding
exists in the current state (the operation is not expressible). -/
def step : Op → SysSt → Option SysSt
  | .copySP, s =>
      if 1 ≤ s.live then
        some { s with block := inc_ref s.block, live := s.live + 1 }
      else none
  | .moveSP, s => if 1 ≤ s.live then some s else none
  | .selfAssignSP, s =>
      if 1 ≤ s.live then
        some { s with block := dec_ref (inc_ref s.block) }
      else none
  | .destroySP, s =>
      if 1 ≤ s.live then
        some { s with block := dec_ref s.block, live := s.live - 1 }
      else none
  | .resetSP, s =>
      if 1 ≤ s.live then
        some { s with block := dec_ref s.block, live := s.live - 1 }
      else none
  | .copyWP, s =>
      if 1 ≤ s.live ∨ 1 ≤ s.liveWeak then
        some { s with block := inc_wref s.block, liveWeak := s.liveWeak + 1 }
      else none
  | .destroyWP, s =>
      if 1 ≤ s.liveWeak then
        some { s with block := dec_wref s.block, liveWeak := s.liveWeak - 1 }
      else none
  | .resetWP, s =>
      if 1 ≤ s.liveWeak then
        some { s with block := dec_wref s.block, liveWeak := s.liveWeak - 1 }
      else none
  | .lockWP, s =>
      if 1 ≤ s.liveWeak then
        some (if cb_expired s.block then s
              else { s with block := inc_ref s.block, live := s.live + 1 })
      else none

/-- Run a sequence of handle operations. -/
def run : List Op → SysSt → Option SysSt
  | [], s => some s
  | op :: ops, s => (step op s).bind (run ops)

/-- World right after `shared_ptr(U* p)` with `p` non-null
(src/shared_ptr.h:452-453): one live `shared_ptr`, a fresh block. -/
def sysInitRaw : SysSt := { block := initBlock false, live := 1, liveWeak := 0 }

/-- World right after `shared_ptr(std::nullptr_t, D d)`
(src/shared_ptr.h:464-465): one live `shared_ptr` whose stored pointer is
null, yet a control block was allocated. -/
def sysInitNull : SysSt := { block := initBlock true, live := 1, liveWeak := 0 }

/-- The reachable-state invariant of the one-block world: the strong count
equals the number of live `shared_ptr` handles; the weak count is the
number of live `weak_ptr` handles plus the implicit unit held while
strong owners exist; the deleter has run exactly once as soon as the
strong owners are gone (never, for a null stored pointer); the block has
been freed exactly once as soon as all handles are gone. -/
def Inv (s : SysSt) : Prop :=
  s.block.use = (s.live : Int) ∧
  s.block.weak = (s.liveWeak : Int) + (if 0 < s.live then 1 else 0) ∧
  (s.block.ptrNull = true → s.block.deleterCalls = 0) ∧
  (s.block.ptrNull = false →
    s.block.deleterCalls = (if s.live = 0 then 1 else 0)) ∧
  s.block.freeCount = (if s.live = 0 then (if s.liveWeak = 0 then 1 else 0) else 0)

/-- A `sp::shared_ptr<T>` value (src/shared_ptr.h:586-588): the stored
pointer `_ptr` (`none` = null) and `_control_block`, abstracted as an
optional block address (`none` = no control block attached). -/
structure SPtr where
  ptr : Option Int
  cb : Option Nat
deriving Repr, DecidableEq

/-- `shared_ptr::get` (line 560): `return _ptr;`. -/
def sp_get (sp : SPtr) : Option Int := sp.ptr

/-- `shared_ptr::operator bool` (line 570): `return (_ptr) ? true : false;`. -/
def sp_to_bool (sp : SPtr) : Bool := sp.ptr.isSome

/-- `shared_ptr::use_count` (line 563) read against the one block `blk` of
the world (every non-empty handle in these scenarios is bound to it):
`return (_control_block) ? _control_block->use_count() : 0;`. -/
def sp_use_count (sp : SPtr) (blk : BlockSt) : Int :=
  if sp.cb.isSome then cb_use_count blk else 0

/-- The value built by `shared_ptr(std::nullptr_t p, D d)` (lines 464-465):
`_ptr{ nullptr }`, `_control_block{ new control_block<T, D>{p, ...} }` —
a null stored pointer yet a freshly allocated control block (address 0). -/
def spFromNullDeleter : SPtr := { ptr := none, cb := some 0 }

/-- `shared_ptr` dtor (line 512) of a single handle against the one block
of the world: `if (_control_block) _control_block->dec_ref();`. -/
def sp_dtor (sp : SPtr) (blk : BlockSt) : BlockSt :=
  if sp.cb.isSome then dec_ref blk else blk

/-- The aliasing ctor `shared_ptr(const shared_ptr<U>& sp, T* p)`
(lines 472-474): `_ptr{ p }, _control_block{ sp._control_block }` then
`if (_control_block) _control_block->inc_ref();`. -/
def alias_ctor (sp : SPtr) (p : Option Int) (blk : BlockSt) : SPtr × BlockSt :=
  (⟨p, sp.cb⟩, if sp.cb.isSome then inc_ref blk else blk)

/-- `static_pointer_cast<T, U>` (lines 657-661):
`return _Sp(sp, static_cast<element_type*>(sp.get()));` — the aliasing
ctor applied to the converted stored pointer; the pointer conversion
itself is abstracted as the function `castP`. (`const_pointer_cast` and
`reinterpret_pointer_cast`, lines 662-679, have the same shape.) -/
def static_pointer_cast (castP : Option Int → Option Int) (sp : SPtr)
    (blk : BlockSt) : SPtr × BlockSt :=
  alias_ctor sp (castP (sp_get sp)) blk

/-- Round trip of C7: cast to a related type, cast back, then destroy the
intermediate temporary; yields the resulting handle and the block state. -/
def cast_round_trip (castTU castUT : Option Int → Option Int) (sp : SPtr)
    (blk : BlockSt) : SPtr × BlockSt :=
  let tu := static_pointer_cast castTU sp blk
  let ut := static_pointer_cast castUT tu.1 tu.2
  (ut.1, sp_dtor tu.1 ut.2)

/-- Address encoding of a `control_block_base*` for `std::less`: the null
pointer (no block) compares below every object address. -/
def cb_addr : Option Nat → Nat
  | none => 0
  | some k => k + 1

/-- `shared_ptr::owner_before` (lines 574-577):
`return std::less<control_block_base*>()(_control_block, sp._control_block);`. -/
def owner_before (a b : SPtr) : Bool :=
  decide (cb_addr a.cb < cb_addr b.cb)

/-- `weak_ptr::use_count` (line 353), over the control-block view of the
`weak_ptr` (`none` models a null `_control_block`):
`return (_control_block) ? _control_block->use_count() : 0;`. -/
def wp_use_count : Option BlockSt → Int
  | some b => cb_use_count b
  | none => 0

/-- `weak_ptr::expired` (line 356):
`return (_control_block) ? _control_block->expired() : false;`. -/
def wp_expired : Option BlockSt → Bool
  | some b => cb_expired b
  | none => false

/-- Result of constructing a `shared_ptr` from a `weak_ptr` (also via
`lock()`): `okSP` = a handle sharing the control block was produced;
`emptySP` = an empty handle was produced; `badWeakThrow` = `bad_weak_ptr`
(lines 292-295) was thrown; `nullDerefUB` = the constructor executed
`_control_block->inc_ref()` with a null `_control_block` (line 506
reached with no block): undefined behavior. -/
inductive Outcome
  | okSP | emptySP | badWeakThrow | nullDerefUB
deriving Repr, DecidableEq

/-- `shared_ptr(const weak_ptr<U>& wp)` (lines 501-507): `if (wp.expired())
throw bad_weak_ptr{}; else _control_block->inc_ref();`. The second
component is the control-block state after the call; when the ctor
throws it is unchanged, since the throw precedes any count mutation. -/
def shared_ptr_from_weak (cb : Option BlockSt) : Outcome × Option BlockSt :=
  if wp_expired cb then (.badWeakThrow, cb)
  else
    match cb with
    | some b => (.okSP, some (inc_ref b))
    | none => (.nullDerefUB, none)

/-- `weak_ptr::lock` (line 359):
`return (expired()) ? shared_ptr<T>{} : shared_ptr<T>{ *this };`. -/
def wp_lock (cb : Option BlockSt) : Outcome × Option BlockSt :=
  if wp_expired cb then (.emptySP, cb) else shared_ptr_from_weak cb

/-- `enable_shared_from_this<T>` (lines 1006-1020): the object state is the
embedded `weak_ptr<T> weak_this`, here its control-block view. -/
structure ESFT where
  weak_this : Option BlockSt
deriving Repr, DecidableEq

/-- `constexpr enable_shared_from_this() noexcept : weak_this{} { }`
(line 1012): the embedded weak reference starts empty. -/
def esft_init : ESFT := ⟨none⟩

/-- `shared_ptr(U* p)` (lines 452-453) wrapping an object of a type derived
from `enable_shared_from_this`: the ctor allocates a fresh
`control_block<U>{p}` and has an empty body — no statement anywhere in
the source assigns `weak_this`, so the object state is returned
untouched. -/
def wrap_raw (o : ESFT) : BlockSt × ESFT := (initBlock false, o)

/-- `shared_from_this()` (line 1018): `return shared_ptr<T>(weak_this);`. -/
def shared_from_this (o : ESFT) : Outcome × Option BlockSt :=
  shared_ptr_from_weak o.weak_this

/-- A `sp::unique_ptr<T, D>` value (lines 694-809): the stored pointer
(`none` = null). The deleter is a type-level component not tracked here. -/
structure UPtr where
  ptr : Option Int
deriving Repr, DecidableEq

/-- `unique_ptr::release` (lines 772-777): returns the stored pointer and
leaves the `unique_ptr` holding null. -/
def up_release (u : UPtr) : Option Int × UPtr := (u.ptr, ⟨none⟩)

/-- `unique_ptr::get` (line 760): `return _impl._impl_ptr();`. -/
def up_get (u : UPtr) : Option Int := u.ptr

/-- `shared_ptr(unique_ptr<U, D>&& up)` (lines 510-511): delegates to
`shared_ptr{ up.release(), up.get_deleter() }`, i.e. the
pointer-plus-deleter ctor (line 457), which allocates a fresh
`control_block<U, D>{p, d}` (strong 1, weak 1, address 0 here) and
stores the released pointer. Yields the new handle, its block state and
the moved-from `unique_ptr`. -/
def shared_from_unique (u : UPtr) : SPtr × BlockSt × UPtr :=
  (⟨(up_release u).1, some 0⟩,
   initBlock (up_release u).1.isNone,
   (up_release u).2)

/-- The interleaving of C8, step by step at the atomic counter operations
of the source: thread B runs the `expired()` load of `lock()` (line 359);
then thread A destroys the last `shared_ptr` (dtor, line 512, running
`dec_ref`); then thread B — whose check saw a nonzero strong count —
runs `_control_block->inc_ref()` (line 506). The Bool records whether
the `lock()` of B produced a strong owner. -/
def lock_racing_last_dtor (b0 : BlockSt) : Bool × BlockSt :=
  let checkSawLive := !(cb_expired b0)
  let b1 := dec_ref b0
  if checkSawLive then (true, inc_ref b1) else (false, b1)

set_option maxHeartbeats 1000000 in
theorem step_preserves (op : Op) (s s' : SysSt) (h : step op s = some s')
    (hi : Inv s) : Inv s' ∧ s'.block.ptrNull = s.block.ptrNull := by
  obtain ⟨⟨u, w, pn, dc, fc⟩, lv, lw⟩ := s
  obtain ⟨h1, h2, h3, h4, h5⟩ := hi
  dsimp only at h1 h2 h3 h4 h5
  cases pn <;>
    simp only [Bool.true_eq_false, Bool.false_eq_true, eq_self_iff_true,
      false_implies, true_implies] at h3 h4 <;>
  cases op <;>
    simp [step, inc_ref, inc_wref, dec_ref, dec_wref, cb_expired] at h <;>
    obtain ⟨hc, h⟩ := h <;>
    (try split_ifs at h) <;>
    subst h <;>
    unfold Inv <;>
    dsimp only <;>
    refine ⟨⟨?_, ?_, ?_, ?_, ?_⟩, rfl⟩ <;>
    first
      | (split_ifs at * <;> omega)
      | (intro hcon
         first
           | exact absurd hcon (by decide)
           | (split_ifs at * <;> omega)
           | omega)
      | omega

theorem run_preserves (ops : List Op) (s s' : SysSt) (h : run ops s = some s')
    (hi : Inv s) : Inv s' ∧ s'.block.ptrNull = s.block.ptrNull := by
  induction ops generalizing s with
  | nil =>
      simp only [run, Option.some.injEq] at h
      subst h; exact ⟨hi, rfl⟩
  | cons op ops ih =>
      simp only [run] at h
      cases hs : step op s with
      | none => rw [hs] at h; cases h
      | some s1 =>
          rw [hs] at h
          obtain ⟨hi1, hp1⟩ := step_preserves op s s1 hs hi
          obtain ⟨hi2, hp2⟩ := ih s1 h hi1
          exact ⟨hi2, hp2.trans hp1⟩

theorem inv_sysInitRaw : Inv sysInitRaw := by
  unfold Inv sysInitRaw initBlock
  norm_num

theorem inv_sysInitNull : Inv sysInitNull := by
  unfold Inv sysInitNull initBlock
  norm_num

/-- C1: for every sequence of `shared_ptr` copy / move / assignment /
reset / destroy (and even `weak_ptr`) operations bound to one control
block, starting from `shared_ptr(U* p)` with `p` non-null, the
`use_count()` of the block always equals the number of currently-live
`shared_ptr` instances sharing it, and the bound deleter has run exactly
once as soon as — and only when — the strong count has reached zero
(i.e. it runs precisely at the operation taking the strong count from 1
to 0, and no operation can run it a second time). -/
theorem use_count_tracks_live_and_deleter_once (ops : List Op) (s : SysSt)
    (h : run ops sysInitRaw = some s) :
    cb_use_count s.block = (s.live : Int) ∧
    s.block.deleterCalls = (if s.live = 0 then 1 else 0) := by
  obtain ⟨hi, hp⟩ := run_preserves ops sysInitRaw s h inv_sysInitRaw
  obtain ⟨h1, h2, h3, h4, h5⟩ := hi
  have hpn : s.block.ptrNull = false := hp
  exact ⟨h1, h4 hpn⟩

/-- Witness for C1: the concrete run copy, destroy, destroy from a fresh
block ends with strong count 0, the deleter having run exactly once. -/
theorem use_count_tracks_live_witness :
    run [Op.copySP, Op.destroySP, Op.destroySP] sysInitRaw =
      some { block := { use := 0, weak := 0, ptrNull := false,
                        deleterCalls := 1, freeCount := 1 },
             live := 0, liveWeak := 0 } ∧
    (cb_use_count { use := 0, weak := 0, ptrNull := false,
                    deleterCalls := 1, freeCount := 1 } = ((0 : Nat) : Int) ∧
     (1 : Nat) = (if (0 : Nat) = 0 then 1 else 0)) :=
  ⟨by decide,
   use_count_tracks_live_and_deleter_once
     [Op.copySP, Op.destroySP, Op.destroySP]
     { block := { use := 0, weak := 0, ptrNull := false,
                  deleterCalls := 1, freeCount := 1 },
       live := 0, liveWeak := 0 }
     (by decide)⟩

/-- C2: over every sequence of `shared_ptr` / `weak_ptr` operations bound
to one control block, `delete this` in `dec_wref` has run exactly once as
soon as — and only when — both the strong and the weak handles are all
gone (the 1-to-0 transition of the weak count), and whenever the block
has been freed, the deleter of the managed object has already run
exactly once (the strong-to-zero transition in `dec_ref` released the
implicit weak unit of the block via `dec_wref`). -/
theorem control_block_freed_once_after_object (ops : List Op) (s : SysSt)
    (h : run ops sysInitRaw = some s) :
    s.block.freeCount =
      (if s.live = 0 then (if s.liveWeak = 0 then 1 else 0) else 0) ∧
    (1 ≤ s.block.freeCount → s.block.deleterCalls = 1) := by
  obtain ⟨hi, hp⟩ := run_preserves ops sysInitRaw s h inv_sysInitRaw
  obtain ⟨h1, h2, h3, h4, h5⟩ := hi
  have hpn : s.block.ptrNull = false := hp
  refine ⟨h5, fun hf => ?_⟩
  have h4f := h4 hpn
  split_ifs at h5 h4f <;> omega

/-- Witness for C2: take a `weak_ptr`, destroy the last `shared_ptr`
(deleter runs, block survives), destroy the `weak_ptr` (block freed). -/
theorem control_block_freed_once_witness :
    run [Op.copyWP, Op.destroySP, Op.destroyWP] sysInitRaw =
      some { block := { use := 0, weak := 0, ptrNull := false,
                        deleterCalls := 1, freeCount := 1 },
             live := 0, liveWeak := 0 } ∧
    ((1 : Nat) = (if (0 : Nat) = 0 then (if (0 : Nat) = 0 then 1 else 0) else 0) ∧
     (1 ≤ (1 : Nat) → (1 : Nat) = 1)) :=
  ⟨by decide,
   control_block_freed_once_after_object
     [Op.copyWP, Op.destroySP, Op.destroyWP]
     { block := { use := 0, weak := 0, ptrNull := false,
                  deleterCalls := 1, freeCount := 1 },
       live := 0, liveWeak := 0 }
     (by decide)⟩

/-- C3, evaluation at the failing input: on an empty (default-constructed
or reset) `weak_ptr`, `use_count()` does return 0, but `expired()`
returns `false` — the claim (and the source comment on line 355,
"Check if use_count == 0") requires `true`. -/
theorem empty_weak_use_count_and_expired :
    wp_use_count none = 0 ∧ wp_expired none = false :=
  ⟨rfl, rfl⟩

/-- C4, evaluation at the failing input: wrapping a fresh
`enable_shared_from_this` object with `shared_ptr(U* p)` leaves the
embedded `weak_this` unbound (the ctor body never touches it), and
calling `shared_from_this()` on the wrapped — let alone never-captured —
object then runs `_control_block->inc_ref()` on a null control block:
undefined behavior, not a thrown `bad_weak_ptr` and not an empty result. -/
theorem esft_never_binds_and_sft_is_ub :
    (wrap_raw esft_init).2.weak_this = none ∧
    shared_from_this (wrap_raw esft_init).2 = (Outcome.nullDerefUB, none) ∧
    shared_from_this esft_init = (Outcome.nullDerefUB, none) :=
  ⟨rfl, rfl, rfl⟩

/-- C5, evaluation at the failing input: `lock()` on an empty `weak_ptr`
(expired in the sense of the claim: it manages no object) does not
return an empty `shared_ptr` — because `expired()` wrongly reports
`false`, the ctor `shared_ptr<T>{ *this }` runs and dereferences the
null `_control_block`: undefined behavior. -/
theorem lock_on_empty_weak_is_ub :
    wp_lock none = (Outcome.nullDerefUB, none) :=
  rfl

/-- C6: constructing a `shared_ptr` from a `weak_ptr` holding a control
block throws `bad_weak_ptr` and leaves both counts untouched when the
block reports zero strong owners, and otherwise succeeds, incrementing
the strong count by one and leaving the weak count unchanged. -/
theorem promote_weak_throws_or_increments (b : BlockSt) :
    shared_ptr_from_weak (some b) =
      (if cb_expired b then (Outcome.badWeakThrow, some b)
       else (Outcome.okSP, some (inc_ref b))) ∧
    (inc_ref b).use = b.use + 1 ∧ (inc_ref b).weak = b.weak := by
  refine ⟨?_, rfl, rfl⟩
  simp only [shared_ptr_from_weak, wp_expired]

/-- C7: a cast round trip (to a related type and back, each cast being the
aliasing ctor on the converted stored pointer) keeps the control-block
identity: the result owns the very same block (`owner_before` equivalent
to the source in both directions), its observed `use_count()` equals the
one of the source, exactly one ownership unit is held by the resulting
handle once the intermediate temporary is destroyed, releasing the
result restores the original strong count exactly, and the deleter never
fires in the process. -/
theorem cast_round_trip_preserves_owner
    (castTU castUT : Option Int → Option Int) (sp : SPtr) (blk : BlockSt)
    (hcb : sp.cb.isSome = true) (hu : 1 ≤ blk.use) :
    (cast_round_trip castTU castUT sp blk).1.cb = sp.cb ∧
    owner_before (cast_round_trip castTU castUT sp blk).1 sp = false ∧
    owner_before sp (cast_round_trip castTU castUT sp blk).1 = false ∧
    sp_use_count (cast_round_trip castTU castUT sp blk).1
        (cast_round_trip castTU castUT sp blk).2 =
      sp_use_count sp (cast_round_trip castTU castUT sp blk).2 ∧
    (cast_round_trip castTU castUT sp blk).2.use = blk.use + 1 ∧
    (cast_round_trip castTU castUT sp blk).2.deleterCalls = blk.deleterCalls ∧
    (sp_dtor (cast_round_trip castTU castUT sp blk).1
        (cast_round_trip castTU castUT sp blk).2).use = blk.use ∧
    (sp_dtor (cast_round_trip castTU castUT sp blk).1
        (cast_round_trip castTU castUT sp blk).2).deleterCalls =
      blk.deleterCalls := by
  obtain ⟨k, hk⟩ := Option.isSome_iff_exists.mp hcb
  simp only [cast_round_trip, static_pointer_cast, alias_ctor, sp_dtor,
    sp_get, sp_use_count, cb_use_count, owner_before, cb_addr, hk,
    Option.isSome_some, if_true, inc_ref, dec_ref, dec_wref]
  refine ⟨trivial, by simp, by simp, trivial, ?_, ?_, ?_, ?_⟩ <;>
    split_ifs at * <;> simp_all <;> omega

/-- Witness for C7: the identity casts on a live handle at address 0 of a
block with strong count 2. -/
theorem cast_round_trip_witness :
    ((SPtr.mk (some 5) (some 0)).cb.isSome = true ∧
     (1 : Int) ≤ (BlockSt.mk 2 1 false 0 0).use) ∧
    ((cast_round_trip id id ⟨some 5, some 0⟩ ⟨2, 1, false, 0, 0⟩).1.cb =
        (SPtr.mk (some 5) (some 0)).cb ∧
     owner_before (cast_round_trip id id ⟨some 5, some 0⟩ ⟨2, 1, false, 0, 0⟩).1
        ⟨some 5, some 0⟩ = false ∧
     owner_before ⟨some 5, some 0⟩
        (cast_round_trip id id ⟨some 5, some 0⟩ ⟨2, 1, false, 0, 0⟩).1 = false ∧
     sp_use_count (cast_round_trip id id ⟨some 5, some 0⟩ ⟨2, 1, false, 0, 0⟩).1
        (cast_round_trip id id ⟨some 5, some 0⟩ ⟨2, 1, false, 0, 0⟩).2 =
       sp_use_count ⟨some 5, some 0⟩
        (cast_round_trip id id ⟨some 5, some 0⟩ ⟨2, 1, false, 0, 0⟩).2 ∧
     (cast_round_trip id id ⟨some 5, some 0⟩ ⟨2, 1, false, 0, 0⟩).2.use =
       (BlockSt.mk 2 1 false 0 0).use + 1 ∧
     (cast_round_trip id id ⟨some 5, some 0⟩ ⟨2, 1, false, 0, 0⟩).2.deleterCalls =
       (BlockSt.mk 2 1 false 0 0).deleterCalls ∧
     (sp_dtor (cast_round_trip id id ⟨some 5, some 0⟩ ⟨2, 1, false, 0, 0⟩).1
        (cast_round_trip id id ⟨some 5, some 0⟩ ⟨2, 1, false, 0, 0⟩).2).use =
       (BlockSt.mk 2 1 false 0 0).use ∧
     (sp_dtor (cast_round_trip id id ⟨some 5, some 0⟩ ⟨2, 1, false, 0, 0⟩).1
        (cast_round_trip id id ⟨some 5, some 0⟩ ⟨2, 1, false, 0, 0⟩).2).deleterCalls =
       (BlockSt.mk 2 1 false 0 0).deleterCalls) :=
  ⟨⟨by decide, by decide⟩,
   cast_round_trip_preserves_owner id id ⟨some 5, some 0⟩ ⟨2, 1, false, 0, 0⟩
     (by decide) (by decide)⟩

/-- C8, the racing interleaving: starting from a block with exactly one
strong owner, thread B runs the `expired()` load of `lock()` (sees 1,
not expired), thread A then destroys the last `shared_ptr` (strong count
hits 0, the deleter runs, the implicit weak unit is released and here
even the block is freed), and thread B then completes the promotion with
`inc_ref`. The result: `lock()` produced a strong owner (`true`, strong
count back to 1) over an object whose deleter has already run — the
check and the increment are two separate atomic operations with a
window, not an indivisible compare-and-increment. -/
theorem lock_race_window_exists :
    lock_racing_last_dtor (initBlock false) =
      (true, { use := 1, weak := 0, ptrNull := false,
               deleterCalls := 1, freeCount := 1 }) := by
  decide

/-- C9: constructing a `shared_ptr` from a `unique_ptr` holding pointer P
yields `use_count() == 1` and `get() == P`, and leaves the `unique_ptr`
empty (`get() == nullptr`). -/
theorem shared_from_unique_transfers (u : UPtr) :
    sp_use_count (shared_from_unique u).1 (shared_from_unique u).2.1 = 1 ∧
    sp_get (shared_from_unique u).1 = up_get u ∧
    up_get (shared_from_unique u).2.2 = none := by
  obtain ⟨p⟩ := u
  refine ⟨?_, rfl, rfl⟩
  simp [shared_from_unique, up_release, sp_use_count, cb_use_count, initBlock]

/-- C10: a `shared_ptr` built by `shared_ptr(std::nullptr_t, D d)` reports
`use_count() == 1` while `get()` is null and `operator bool` is false;
and over every subsequent sequence of handle operations the deleter is
never invoked (the null stored pointer is guarded by `if (_ptr)` in
`dec_ref`), yet the control block is still freed exactly once, when the
last handle disappears. -/
theorem null_ptr_with_deleter (ops : List Op) (s : SysSt)
    (h : run ops sysInitNull = some s) :
    sp_use_count spFromNullDeleter sysInitNull.block = 1 ∧
    sp_get spFromNullDeleter = none ∧
    sp_to_bool spFromNullDeleter = false ∧
    s.block.deleterCalls = 0 ∧
    s.block.freeCount =
      (if s.live = 0 then (if s.liveWeak = 0 then 1 else 0) else 0) := by
  obtain ⟨hi, hp⟩ := run_preserves ops sysInitNull s h inv_sysInitNull
  obtain ⟨h1, h2, h3, h4, h5⟩ := hi
  have hpn : s.block.ptrNull = true := hp
  exact ⟨rfl, rfl, rfl, h3 hpn, h5⟩

/-- Witness for C10: destroying the sole copy frees the block without
ever invoking the deleter. -/
theorem null_ptr_with_deleter_witness :
    run [Op.destroySP] sysInitNull =
      some { block := { use := 0, weak := 0, ptrNull := true,
                        deleterCalls := 0, freeCount := 1 },
             live := 0, liveWeak := 0 } ∧
    (sp_use_count spFromNullDeleter sysInitNull.block = 1 ∧
     sp_get spFromNullDeleter = none ∧
     sp_to_bool spFromNullDeleter = false ∧
     (0 : Nat) = 0 ∧
     (1 : Nat) = (if (0 : Nat) = 0 then (if (0 : Nat) = 0 then 1 else 0) else 0)) :=
  ⟨by decide,
   null_ptr_with_deleter [Op.destroySP]
     { block := { use := 0, weak := 0, ptrNull := true,
                  deleterCalls := 0, freeCount := 1 },
       live := 0, liveWeak := 0 }
     (by decide)⟩

end Sp
